import Mathlib

/-!
Verification of the `pageless` Slack MCP server
(`src/pageless/slack_server.py`) against its specification.

The Python module has two layers:
  * `SlackClient` — one method per remote Slack Web API operation; each
    method builds exactly one HTTP request (method, URL, headers,
    query params or JSON body), issues it, and returns the decoded JSON
    response body unmodified;
  * eight `@mcp.tool()` dispatcher functions — each validates presence of
    its required string arguments, invokes the corresponding client
    method, and returns `json.dumps` of either the response or a
    `{"error": <message>}` object.

The embedding below is shallow: JSON values are an inductive type,
`Json.dumps` mirrors Python's `json.dumps` with its default separators
and `ensure_ascii` escaping, and the network plus `response.json()`
decoding is an oracle `Net : HttpRequest → Except String Json` (the
`String` carries `str(e)` of a raised exception).  Each client method
returns both the oracle's answer and the request it issued; each tool
returns its text result together with the list of requests actually
issued, so "the remote call is never issued" is the statement that this
list is empty.
-/

/-- JSON values as decoded by Python's `json` module from Slack response
bodies.  Numbers are integers here: no claim involves a float literal. -/
inductive Json where
  | null : Json
  | bool : Bool → Json
  | num : Int → Json
  | str : String → Json
  | arr : List Json → Json
  | obj : List (String × Json) → Json
deriving Repr

/-- Lowercase hexadecimal digit, as produced by Python's `json` escaping. -/
def hexDigit (n : Nat) : Char :=
  if n < 10 then Char.ofNat (48 + n) else Char.ofNat (87 + n)

/-- Four lowercase hex digits of `n % 65536`. -/
def hex4 (n : Nat) : String :=
  String.mk [hexDigit (n / 4096 % 16), hexDigit (n / 256 % 16),
             hexDigit (n / 16 % 16), hexDigit (n % 16)]

/-- The `\uXXXX` escape Python emits under `ensure_ascii=True`: a single
escape for code points below `0x10000`, a surrogate pair above. -/
def uEscape (c : Char) : String :=
  let n := c.toNat
  if n < 65536 then "\\u" ++ hex4 n
  else "\\u" ++ hex4 (55296 + (n - 65536) / 1024)
       ++ "\\u" ++ hex4 (56320 + (n - 65536) % 1024)

/-- Escaping of one character inside a JSON string literal, following
Python's `json.dumps` defaults (`ensure_ascii=True`). -/
def escapeChar (c : Char) : String :=
  if c = '"' then "\\\""
  else if c = '\\' then "\\\\"
  else if c = '\n' then "\\n"
  else if c = '\r' then "\\r"
  else if c = '\t' then "\\t"
  else if c.toNat = 8 then "\\b"
  else if c.toNat = 12 then "\\f"
  else if c.toNat < 32 || c.toNat > 126 then uEscape c
  else String.singleton c

/-- A JSON string literal: quotes around the escaped characters. -/
def dumpStr (s : String) : String :=
  "\"" ++ String.join (s.data.map escapeChar) ++ "\""

mutual

/-- Python's `json.dumps` with default arguments: separators `", "` and
`": "`, object members in insertion order. -/
def Json.dumps : Json → String
  | .null => "null"
  | .bool b => if b then "true" else "false"
  | .num n => toString n
  | .str s => dumpStr s
  | .arr xs => "[" ++ Json.dumpsElems xs ++ "]"
  | .obj kvs => "\x7b" ++ Json.dumpsMembers kvs ++ "\x7d"

/-- Array elements joined by `", "`. -/
def Json.dumpsElems : List Json → String
  | [] => ""
  | [j] => Json.dumps j
  | j :: rest => Json.dumps j ++ ", " ++ Json.dumpsElems rest

/-- Object members `key: value` joined by `", "`. -/
def Json.dumpsMembers : List (String × Json) → String
  | [] => ""
  | [(k, v)] => dumpStr k ++ ": " ++ Json.dumps v
  | (k, v) :: rest => dumpStr k ++ ": " ++ Json.dumps v ++ ", " ++ Json.dumpsMembers rest

end

example : Json.dumps (Json.obj [("ok", Json.bool true), ("ts", Json.str "100.1")])
    = "\x7b\"ok\": true, \"ts\": \"100.1\"\x7d" := by decide

example : Json.dumps (Json.arr [Json.num (-5), Json.null, Json.str "a\"b"])
    = "[-5, null, \"a\\\"b\"]" := by decide

/-- The uniform error object `{"error": str(e)}` built in every tool's
`except` clause. -/
def errJson (msg : String) : Json :=
  Json.obj [("error", Json.str msg)]

/-- HTTP verb of a request (`client.get` / `client.post` in the source). -/
inductive Method where
  | get : Method
  | post : Method
deriving DecidableEq, Repr

/-- One outbound HTTP request as built by a `SlackClient` method: verb,
URL, headers, query parameters (for GET) and JSON body (for POST,
`httpx`'s `json=` argument).  Parameter and header dictionaries are
association lists in insertion order. -/
structure HttpRequest where
  method : Method
  url : String
  headers : List (String × String)
  params : List (String × String)
  body : Option Json
deriving Repr

/-- Lookup of a query parameter by key, mirroring Python dict access on
the `params` mapping sent with the request. -/
def HttpRequest.getParam (r : HttpRequest) (k : String) : Option String :=
  (r.params.find? (fun kv => kv.1 == k)).map (fun kv => kv.2)

/-- The network oracle: issuing a request and decoding its body with
`response.json()`.  `Except.error e` models any exception raised during
the call (connectivity, transport, decoding), with `e` its `str(e)`. -/
abbrev Net : Type :=
  HttpRequest → Except String Json

/-- The client's only state: the headers built once in `__init__` from
the bot token. -/
structure SlackClient where
  bot_headers : List (String × String)

/-- `SlackClient.__init__`: fixes the `Authorization: Bearer <token>` and
`Content-Type` headers for the lifetime of the client. -/
def SlackClient.init (bot_token : String) : SlackClient :=
  { bot_headers := [("Authorization", "Bearer " ++ bot_token),
                    ("Content-Type", "application/json")] }

/-- `SlackClient.get_channels(limit=100, cursor=None)`.  `limitArg = none`
models the caller relying on the Python default `limit=100`.  The
`cursor` parameter is added only when truthy (neither `None` nor `""`),
after the four base parameters.  `team_id` is the module-level global
read from the environment. -/
def SlackClient.get_channels (c : SlackClient) (team_id : String) (net : Net)
    (limitArg : Option Int) (cursor : Option String) :
    Except String Json × HttpRequest :=
  let limit := limitArg.getD 100
  let baseParams := [("types", "public_channel"),
                     ("exclude_archived", "true"),
                     ("limit", toString (min limit 200)),
                     ("team_id", team_id)]
  let params := match cursor with
    | some cur => if cur = "" then baseParams else baseParams ++ [("cursor", cur)]
    | none => baseParams
  let req : HttpRequest :=
    { method := Method.get, url := "https://slack.com/api/conversations.list",
      headers := c.bot_headers, params := params, body := none }
  (net req, req)

/-- `SlackClient.post_message(channel_id, text)`. -/
def SlackClient.post_message (c : SlackClient) (net : Net)
    (channel_id text : String) : Except String Json × HttpRequest :=
  let req : HttpRequest :=
    { method := Method.post, url := "https://slack.com/api/chat.postMessage",
      headers := c.bot_headers, params := [],
      body := some (Json.obj [("channel", Json.str channel_id),
                              ("text", Json.str text)]) }
  (net req, req)

/-- `SlackClient.post_reply(channel_id, thread_ts, text)`. -/
def SlackClient.post_reply (c : SlackClient) (net : Net)
    (channel_id thread_ts text : String) : Except String Json × HttpRequest :=
  let req : HttpRequest :=
    { method := Method.post, url := "https://slack.com/api/chat.postMessage",
      headers := c.bot_headers, params := [],
      body := some (Json.obj [("channel", Json.str channel_id),
                              ("thread_ts", Json.str thread_ts),
                              ("text", Json.str text)]) }
  (net req, req)

/-- `SlackClient.add_reaction(channel_id, timestamp, reaction)`. -/
def SlackClient.add_reaction (c : SlackClient) (net : Net)
    (channel_id timestamp reaction : String) : Except String Json × HttpRequest :=
  let req : HttpRequest :=
    { method := Method.post, url := "https://slack.com/api/reactions.add",
      headers := c.bot_headers, params := [],
      body := some (Json.obj [("channel", Json.str channel_id),
                              ("timestamp", Json.str timestamp),
                              ("name", Json.str reaction)]) }
  (net req, req)

/-- `SlackClient.get_channel_history(channel_id, limit=10)`: the limit is
sent as `str(limit)`, with no cap. -/
def SlackClient.get_channel_history (c : SlackClient) (net : Net)
    (channel_id : String) (limitArg : Option Int) :
    Except String Json × HttpRequest :=
  let limit := limitArg.getD 10
  let req : HttpRequest :=
    { method := Method.get, url := "https://slack.com/api/conversations.history",
      headers := c.bot_headers,
      params := [("channel", channel_id), ("limit", toString limit)],
      body := none }
  (net req, req)

/-- `SlackClient.get_thread_replies(channel_id, thread_ts)`. -/
def SlackClient.get_thread_replies (c : SlackClient) (net : Net)
    (channel_id thread_ts : String) : Except String Json × HttpRequest :=
  let req : HttpRequest :=
    { method := Method.get, url := "https://slack.com/api/conversations.replies",
      headers := c.bot_headers,
      params := [("channel", channel_id), ("ts", thread_ts)],
      body := none }
  (net req, req)

/-- `SlackClient.get_users(limit=100, cursor=None)`. -/
def SlackClient.get_users (c : SlackClient) (team_id : String) (net : Net)
    (limitArg : Option Int) (cursor : Option String) :
    Except String Json × HttpRequest :=
  let limit := limitArg.getD 100
  let baseParams := [("limit", toString (min limit 200)), ("team_id", team_id)]
  let params := match cursor with
    | some cur => if cur = "" then baseParams else baseParams ++ [("cursor", cur)]
    | none => baseParams
  let req : HttpRequest :=
    { method := Method.get, url := "https://slack.com/api/users.list",
      headers := c.bot_headers, params := params, body := none }
  (net req, req)

/-- `SlackClient.get_user_profile(user_id)`. -/
def SlackClient.get_user_profile (c : SlackClient) (net : Net)
    (user_id : String) : Except String Json × HttpRequest :=
  let req : HttpRequest :=
    { method := Method.get, url := "https://slack.com/api/users.profile.get",
      headers := c.bot_headers,
      params := [("user", user_id), ("include_labels", "true")],
      body := none }
  (net req, req)

/-!
The eight `@mcp.tool()` dispatcher functions.  Each returns the text
result (first component) together with the list of HTTP requests it
actually issued (second component) — empty exactly when the body raised
its `ValueError` before reaching the client call.  Python's
`if not s: raise ...` on a `str` argument fires precisely when the
string is empty, and the surrounding `except Exception` turns the raised
message into `json.dumps({"error": str(e)})`.
-/

/-- `slack_list_channels(limit=100, cursor=None)`: no validation, the
client call is always made. -/
def slack_list_channels (c : SlackClient) (team_id : String) (net : Net)
    (limitArg : Option Int) (cursor : Option String) : String × List HttpRequest :=
  let limit := limitArg.getD 100
  let (res, req) := c.get_channels team_id net (some limit) cursor
  match res with
  | Except.ok r => (Json.dumps r, [req])
  | Except.error e => (Json.dumps (errJson e), [req])

/-- `slack_post_message(channel_id, text)`. -/
def slack_post_message (c : SlackClient) (net : Net)
    (channel_id text : String) : String × List HttpRequest :=
  if channel_id = "" ∨ text = "" then
    (Json.dumps (errJson "Missing required arguments: channel_id and text"), [])
  else
    let (res, req) := c.post_message net channel_id text
    match res with
    | Except.ok r => (Json.dumps r, [req])
    | Except.error e => (Json.dumps (errJson e), [req])

/-- `slack_reply_to_thread(channel_id, thread_ts, text)`. -/
def slack_reply_to_thread (c : SlackClient) (net : Net)
    (channel_id thread_ts text : String) : String × List HttpRequest :=
  if channel_id = "" ∨ thread_ts = "" ∨ text = "" then
    (Json.dumps (errJson "Missing required arguments: channel_id, thread_ts, and text"), [])
  else
    let (res, req) := c.post_reply net channel_id thread_ts text
    match res with
    | Except.ok r => (Json.dumps r, [req])
    | Except.error e => (Json.dumps (errJson e), [req])

/-- `slack_add_reaction(channel_id, timestamp, reaction)`. -/
def slack_add_reaction (c : SlackClient) (net : Net)
    (channel_id timestamp reaction : String) : String × List HttpRequest :=
  if channel_id = "" ∨ timestamp = "" ∨ reaction = "" then
    (Json.dumps (errJson "Missing required arguments: channel_id, timestamp, and reaction"), [])
  else
    let (res, req) := c.add_reaction net channel_id timestamp reaction
    match res with
    | Except.ok r => (Json.dumps r, [req])
    | Except.error e => (Json.dumps (errJson e), [req])

/-- `slack_get_channel_history(channel_id, limit=10)`: only `channel_id`
is validated; `limit` is forwarded as given. -/
def slack_get_channel_history (c : SlackClient) (net : Net)
    (channel_id : String) (limitArg : Option Int) : String × List HttpRequest :=
  if channel_id = "" then
    (Json.dumps (errJson "Missing required argument: channel_id"), [])
  else
    let limit := limitArg.getD 10
    let (res, req) := c.get_channel_history net channel_id (some limit)
    match res with
    | Except.ok r => (Json.dumps r, [req])
    | Except.error e => (Json.dumps (errJson e), [req])

/-- `slack_get_thread_replies(channel_id, thread_ts)`. -/
def slack_get_thread_replies (c : SlackClient) (net : Net)
    (channel_id thread_ts : String) : String × List HttpRequest :=
  if channel_id = "" ∨ thread_ts = "" then
    (Json.dumps (errJson "Missing required arguments: channel_id and thread_ts"), [])
  else
    let (res, req) := c.get_thread_replies net channel_id thread_ts
    match res with
    | Except.ok r => (Json.dumps r, [req])
    | Except.error e => (Json.dumps (errJson e), [req])

/-- `slack_get_users(limit=100, cursor=None)`: no validation, the client
call is always made. -/
def slack_get_users (c : SlackClient) (team_id : String) (net : Net)
    (limitArg : Option Int) (cursor : Option String) : String × List HttpRequest :=
  let limit := limitArg.getD 100
  let (res, req) := c.get_users team_id net (some limit) cursor
  match res with
  | Except.ok r => (Json.dumps r, [req])
  | Except.error e => (Json.dumps (errJson e), [req])

/-- `slack_get_user_profile(user_id)`. -/
def slack_get_user_profile (c : SlackClient) (net : Net)
    (user_id : String) : String × List HttpRequest :=
  if user_id = "" then
    (Json.dumps (errJson "Missing required argument: user_id"), [])
  else
    let (res, req) := c.get_user_profile net user_id
    match res with
    | Except.ok r => (Json.dumps r, [req])
    | Except.error e => (Json.dumps (errJson e), [req])

/-- Outcome of the module-level startup check when it fails: the message
printed to `stderr` and the `sys.exit` status. -/
structure StartupExit where
  stderr_msg : String
  exit_code : Nat
deriving Repr

/-- Python truthiness of an `Optional[str]`: `None` and `""` are falsy. -/
def pyTruthy : Option String → Bool
  | none => false
  | some v => v != ""

/-- The module-level startup code: read `SLACK_BOT_TOKEN` and
`SLACK_TEAM_ID` from the environment; if either is missing or empty,
print a diagnostic to stderr and exit with status 1; otherwise the
credentials are fixed for the process lifetime and the server starts. -/
def startup_check (env : String → Option String) :
    Except StartupExit (String × String) :=
  let bot_token := env "SLACK_BOT_TOKEN"
  let team_id := env "SLACK_TEAM_ID"
  if !pyTruthy bot_token || !pyTruthy team_id then
    Except.error { stderr_msg := "Please set SLACK_BOT_TOKEN and SLACK_TEAM_ID environment variables",
                   exit_code := 1 }
  else
    Except.ok (bot_token.getD "", team_id.getD "")

/-!
Claims.
-/

/-- C1: for every tool, if all required arguments are present and
non-empty and the client operation returns a successful remote response
`R`, the tool's text result is exactly `json.dumps R` — the serialization
of the response body verbatim, with no interpretation or transformation
(so parsing it back yields `R`). -/
theorem C1_success_passthrough (c : SlackClient) (team_id : String) (R : Json)
    (limitArg : Option Int) (cursor : Option String)
    (channel_id thread_ts text timestamp reaction user_id : String)
    (hch : channel_id ≠ "") (hts : thread_ts ≠ "") (htxt : text ≠ "")
    (htm : timestamp ≠ "") (hre : reaction ≠ "") (hus : user_id ≠ "") :
    (slack_list_channels c team_id (fun _ => Except.ok R) limitArg cursor).1 = Json.dumps R ∧
    (slack_post_message c (fun _ => Except.ok R) channel_id text).1 = Json.dumps R ∧
    (slack_reply_to_thread c (fun _ => Except.ok R) channel_id thread_ts text).1 = Json.dumps R ∧
    (slack_add_reaction c (fun _ => Except.ok R) channel_id timestamp reaction).1 = Json.dumps R ∧
    (slack_get_channel_history c (fun _ => Except.ok R) channel_id limitArg).1 = Json.dumps R ∧
    (slack_get_thread_replies c (fun _ => Except.ok R) channel_id thread_ts).1 = Json.dumps R ∧
    (slack_get_users c team_id (fun _ => Except.ok R) limitArg cursor).1 = Json.dumps R ∧
    (slack_get_user_profile c (fun _ => Except.ok R) user_id).1 = Json.dumps R := by
  refine ⟨rfl, ?_, ?_, ?_, ?_, ?_, rfl, ?_⟩ <;>
    simp [slack_post_message, slack_reply_to_thread, slack_add_reaction,
          slack_get_channel_history, slack_get_thread_replies,
          slack_get_user_profile, SlackClient.post_message,
          SlackClient.post_reply, SlackClient.add_reaction,
          SlackClient.get_channel_history, SlackClient.get_thread_replies,
          SlackClient.get_user_profile, hch, hts, htxt, htm, hre, hus]

/-- Witness for C1 at concrete inputs. -/
theorem C1_success_passthrough_witness :
    (("C1" : String) ≠ "" ∧ ("10.5" : String) ≠ "" ∧ ("hi" : String) ≠ "" ∧
     ("17.2" : String) ≠ "" ∧ ("wave" : String) ≠ "" ∧ ("U7" : String) ≠ "") ∧
    ((slack_list_channels (SlackClient.init "tok") "T1" (fun _ => Except.ok (Json.bool true)) none none).1 = Json.dumps (Json.bool true) ∧
     (slack_post_message (SlackClient.init "tok") (fun _ => Except.ok (Json.bool true)) "C1" "hi").1 = Json.dumps (Json.bool true) ∧
     (slack_reply_to_thread (SlackClient.init "tok") (fun _ => Except.ok (Json.bool true)) "C1" "10.5" "hi").1 = Json.dumps (Json.bool true) ∧
     (slack_add_reaction (SlackClient.init "tok") (fun _ => Except.ok (Json.bool true)) "C1" "17.2" "wave").1 = Json.dumps (Json.bool true) ∧
     (slack_get_channel_history (SlackClient.init "tok") (fun _ => Except.ok (Json.bool true)) "C1" none).1 = Json.dumps (Json.bool true) ∧
     (slack_get_thread_replies (SlackClient.init "tok") (fun _ => Except.ok (Json.bool true)) "C1" "10.5").1 = Json.dumps (Json.bool true) ∧
     (slack_get_users (SlackClient.init "tok") "T1" (fun _ => Except.ok (Json.bool true)) none none).1 = Json.dumps (Json.bool true) ∧
     (slack_get_user_profile (SlackClient.init "tok") (fun _ => Except.ok (Json.bool true)) "U7").1 = Json.dumps (Json.bool true)) :=
  ⟨by decide,
   C1_success_passthrough (SlackClient.init "tok") "T1" (Json.bool true)
     none none "C1" "10.5" "hi" "17.2" "wave" "U7"
     (by decide) (by decide) (by decide) (by decide) (by decide) (by decide)⟩

/-- C7: `post_message("C123", "hello")` with a stubbed remote API whose
decoded body is `{"ok": true, "ts": "100.1"}` returns exactly the text
`{"ok": true, "ts": "100.1"}`, unchanged. -/
theorem C7_post_message_concrete (c : SlackClient) :
    (slack_post_message c
      (fun _ => Except.ok (Json.obj [("ok", Json.bool true), ("ts", Json.str "100.1")]))
      "C123" "hello").1
      = "\x7b\"ok\": true, \"ts\": \"100.1\"\x7d" := by
  simp [slack_post_message, SlackClient.post_message]
  decide

/-- C3: for every tool, when the client operation raises (the oracle
returns `Except.error e` for any message `e`), the tool catches it and
its text result is exactly `json.dumps {"error": e}`; the tools are
total functions into `String × List HttpRequest`, so no failure ever
propagates out of the dispatcher. -/
theorem C3_error_wrapping (c : SlackClient) (team_id e : String)
    (limitArg : Option Int) (cursor : Option String)
    (channel_id thread_ts text timestamp reaction user_id : String)
    (hch : channel_id ≠ "") (hts : thread_ts ≠ "") (htxt : text ≠ "")
    (htm : timestamp ≠ "") (hre : reaction ≠ "") (hus : user_id ≠ "") :
    (slack_list_channels c team_id (fun _ => Except.error e) limitArg cursor).1 = Json.dumps (errJson e) ∧
    (slack_post_message c (fun _ => Except.error e) channel_id text).1 = Json.dumps (errJson e) ∧
    (slack_reply_to_thread c (fun _ => Except.error e) channel_id thread_ts text).1 = Json.dumps (errJson e) ∧
    (slack_add_reaction c (fun _ => Except.error e) channel_id timestamp reaction).1 = Json.dumps (errJson e) ∧
    (slack_get_channel_history c (fun _ => Except.error e) channel_id limitArg).1 = Json.dumps (errJson e) ∧
    (slack_get_thread_replies c (fun _ => Except.error e) channel_id thread_ts).1 = Json.dumps (errJson e) ∧
    (slack_get_users c team_id (fun _ => Except.error e) limitArg cursor).1 = Json.dumps (errJson e) ∧
    (slack_get_user_profile c (fun _ => Except.error e) user_id).1 = Json.dumps (errJson e) := by
  refine ⟨rfl, ?_, ?_, ?_, ?_, ?_, rfl, ?_⟩ <;>
    simp [slack_post_message, slack_reply_to_thread, slack_add_reaction,
          slack_get_channel_history, slack_get_thread_replies,
          slack_get_user_profile, SlackClient.post_message,
          SlackClient.post_reply, SlackClient.add_reaction,
          SlackClient.get_channel_history, SlackClient.get_thread_replies,
          SlackClient.get_user_profile, hch, hts, htxt, htm, hre, hus]

/-- C2: for every tool with required arguments, an absent-or-empty
required argument makes the tool fail immediately with the local error
object `{"error": "Missing required argument(s): <names>"}` serialized
as text, and no request is issued (the request log is empty, for every
network oracle).  The final conjunct is the concrete scenario
`reply_to_thread("C123", "", "hi")`. -/
theorem C2_validation_short_circuit (c : SlackClient) (net : Net)
    (channel_id thread_ts text timestamp reaction user_id : String)
    (limitArg : Option Int) :
    (channel_id = "" ∨ text = "" →
      slack_post_message c net channel_id text
        = (Json.dumps (errJson "Missing required arguments: channel_id and text"), [])) ∧
    (channel_id = "" ∨ thread_ts = "" ∨ text = "" →
      slack_reply_to_thread c net channel_id thread_ts text
        = (Json.dumps (errJson "Missing required arguments: channel_id, thread_ts, and text"), [])) ∧
    (channel_id = "" ∨ timestamp = "" ∨ reaction = "" →
      slack_add_reaction c net channel_id timestamp reaction
        = (Json.dumps (errJson "Missing required arguments: channel_id, timestamp, and reaction"), [])) ∧
    (channel_id = "" →
      slack_get_channel_history c net channel_id limitArg
        = (Json.dumps (errJson "Missing required argument: channel_id"), [])) ∧
    (channel_id = "" ∨ thread_ts = "" →
      slack_get_thread_replies c net channel_id thread_ts
        = (Json.dumps (errJson "Missing required arguments: channel_id and thread_ts"), [])) ∧
    (user_id = "" →
      slack_get_user_profile c net user_id
        = (Json.dumps (errJson "Missing required argument: user_id"), [])) ∧
    slack_reply_to_thread c net "C123" "" "hi"
      = (Json.dumps (errJson "Missing required arguments: channel_id, thread_ts, and text"), []) := by
  refine ⟨fun h => ?_, fun h => ?_, fun h => ?_, fun h => ?_, fun h => ?_, fun h => ?_, ?_⟩
  · unfold slack_post_message; rw [if_pos h]
  · unfold slack_reply_to_thread; rw [if_pos h]
  · unfold slack_add_reaction; rw [if_pos h]
  · unfold slack_get_channel_history; rw [if_pos h]
  · unfold slack_get_thread_replies; rw [if_pos h]
  · unfold slack_get_user_profile; rw [if_pos h]
  · unfold slack_reply_to_thread; rw [if_pos (Or.inr (Or.inl rfl))]

/-- Witness for C2 at concrete inputs: empty `text` for `post_message`. -/
theorem C2_validation_short_circuit_witness :
    (("C123" : String) = "" ∨ ("" : String) = "") ∧
    slack_post_message (SlackClient.init "tok") (fun _ => Except.ok Json.null) "C123" ""
      = (Json.dumps (errJson "Missing required arguments: channel_id and text"), []) :=
  ⟨Or.inr rfl,
   (C2_validation_short_circuit (SlackClient.init "tok") (fun _ => Except.ok Json.null)
      "C123" "10.5" "" "17.2" "wave" "U7" none).1 (Or.inr rfl)⟩

/-- Witness for C3 at concrete inputs. -/
theorem C3_error_wrapping_witness :
    (("C1" : String) ≠ "" ∧ ("10.5" : String) ≠ "" ∧ ("hi" : String) ≠ "" ∧
     ("17.2" : String) ≠ "" ∧ ("wave" : String) ≠ "" ∧ ("U7" : String) ≠ "") ∧
    ((slack_list_channels (SlackClient.init "tok") "T1" (fun _ => Except.error "Connection refused") none none).1 = Json.dumps (errJson "Connection refused") ∧
     (slack_post_message (SlackClient.init "tok") (fun _ => Except.error "Connection refused") "C1" "hi").1 = Json.dumps (errJson "Connection refused") ∧
     (slack_reply_to_thread (SlackClient.init "tok") (fun _ => Except.error "Connection refused") "C1" "10.5" "hi").1 = Json.dumps (errJson "Connection refused") ∧
     (slack_add_reaction (SlackClient.init "tok") (fun _ => Except.error "Connection refused") "C1" "17.2" "wave").1 = Json.dumps (errJson "Connection refused") ∧
     (slack_get_channel_history (SlackClient.init "tok") (fun _ => Except.error "Connection refused") "C1" none).1 = Json.dumps (errJson "Connection refused") ∧
     (slack_get_thread_replies (SlackClient.init "tok") (fun _ => Except.error "Connection refused") "C1" "10.5").1 = Json.dumps (errJson "Connection refused") ∧
     (slack_get_users (SlackClient.init "tok") "T1" (fun _ => Except.error "Connection refused") none none).1 = Json.dumps (errJson "Connection refused") ∧
     (slack_get_user_profile (SlackClient.init "tok") (fun _ => Except.error "Connection refused") "U7").1 = Json.dumps (errJson "Connection refused")) :=
  ⟨by decide,
   C3_error_wrapping (SlackClient.init "tok") "T1" "Connection refused"
     none none "C1" "10.5" "hi" "17.2" "wave" "U7"
     (by decide) (by decide) (by decide) (by decide) (by decide) (by decide)⟩

/-- C4: on the channel- and user-listing operations, a `limit` above 200
is capped to 200 in the outbound request (`str(min(limit, 200))`); when
`limit` is not provided, the Python default applies: 100 for
`list_channels` and `get_users`, 10 for `get_channel_history`. -/
theorem C4_limit_cap_and_defaults (c : SlackClient) (team_id : String) (net : Net)
    (limit : Int) (cursor : Option String) (channel_id : String)
    (hlim : 200 < limit) :
    (c.get_channels team_id net (some limit) cursor).2.getParam "limit" = some "200" ∧
    (c.get_users team_id net (some limit) cursor).2.getParam "limit" = some "200" ∧
    (c.get_channels team_id net none cursor).2.getParam "limit" = some "100" ∧
    (c.get_users team_id net none cursor).2.getParam "limit" = some "100" ∧
    (c.get_channel_history net channel_id none).2.getParam "limit" = some "10" := by
  have hmin : min limit 200 = 200 := min_eq_right hlim.le
  have h200 : toString (200 : Int) = "200" := by decide
  have h100 : toString (100 : Int) = "100" := by decide
  have h10 : toString (10 : Int) = "10" := by decide
  refine ⟨?_, ?_, ?_, ?_, ?_⟩ <;>
  · rcases cursor with _ | cur
    · simp [SlackClient.get_channels, SlackClient.get_users,
            SlackClient.get_channel_history, HttpRequest.getParam,
            List.find?, hmin, h200, h100, h10]
    · by_cases hc : cur = "" <;>
        simp [SlackClient.get_channels, SlackClient.get_users,
              SlackClient.get_channel_history, HttpRequest.getParam,
              List.find?, hmin, h200, h100, h10, hc]

/-- Witness for C4 at concrete inputs: `limit = 500`. -/
theorem C4_limit_cap_and_defaults_witness :
    (200 : Int) < 500 ∧
    (((SlackClient.init "tok").get_channels "T1" (fun _ => Except.ok Json.null) (some 500) none).2.getParam "limit" = some "200" ∧
     ((SlackClient.init "tok").get_users "T1" (fun _ => Except.ok Json.null) (some 500) none).2.getParam "limit" = some "200" ∧
     ((SlackClient.init "tok").get_channels "T1" (fun _ => Except.ok Json.null) none none).2.getParam "limit" = some "100" ∧
     ((SlackClient.init "tok").get_users "T1" (fun _ => Except.ok Json.null) none none).2.getParam "limit" = some "100" ∧
     ((SlackClient.init "tok").get_channel_history (fun _ => Except.ok Json.null) "C1" none).2.getParam "limit" = some "10") :=
  ⟨by decide,
   C4_limit_cap_and_defaults (SlackClient.init "tok") "T1"
     (fun _ => Except.ok Json.null) 500 none "C1" (by decide)⟩

/-- C5: on the channel- and user-listing operations, a (truthy) cursor
value is included as the `cursor` query parameter of the outbound
request, while omitting the cursor (Python `None`) omits the parameter
entirely rather than sending an empty value. -/
theorem C5_cursor_passthrough (c : SlackClient) (team_id : String) (net : Net)
    (limitArg : Option Int) (s : String) (hs : s ≠ "") :
    (c.get_channels team_id net limitArg (some s)).2.getParam "cursor" = some s ∧
    (c.get_users team_id net limitArg (some s)).2.getParam "cursor" = some s ∧
    (c.get_channels team_id net limitArg none).2.getParam "cursor" = none ∧
    (c.get_users team_id net limitArg none).2.getParam "cursor" = none := by
  refine ⟨?_, ?_, ?_, ?_⟩ <;>
    simp [SlackClient.get_channels, SlackClient.get_users,
          HttpRequest.getParam, List.find?, hs]

/-- Witness for C5 at a concrete cursor. -/
theorem C5_cursor_passthrough_witness :
    ("dXNlcjpVMDYxTkZUVDI=" : String) ≠ "" ∧
    (((SlackClient.init "tok").get_channels "T1" (fun _ => Except.ok Json.null) none (some "dXNlcjpVMDYxTkZUVDI=")).2.getParam "cursor" = some "dXNlcjpVMDYxTkZUVDI=" ∧
     ((SlackClient.init "tok").get_users "T1" (fun _ => Except.ok Json.null) none (some "dXNlcjpVMDYxTkZUVDI=")).2.getParam "cursor" = some "dXNlcjpVMDYxTkZUVDI=" ∧
     ((SlackClient.init "tok").get_channels "T1" (fun _ => Except.ok Json.null) none none).2.getParam "cursor" = none ∧
     ((SlackClient.init "tok").get_users "T1" (fun _ => Except.ok Json.null) none none).2.getParam "cursor" = none) :=
  ⟨by decide,
   C5_cursor_passthrough (SlackClient.init "tok") "T1"
     (fun _ => Except.ok Json.null) none "dXNlcjpVMDYxTkZUVDI=" (by decide)⟩

/-- C6, counterexample to the claim as stated: the workspace identifier
is not used as a header.  With bot token `"xoxb-secret"` and workspace
identifier `"T0WORKSPACE"`, the request issued by `post_message` carries
only the `Authorization` and `Content-Type` headers, and the workspace
identifier appears in no header key or value. -/
theorem C6_counterexample :
    (((SlackClient.init "xoxb-secret").post_message
        (fun _ => Except.ok Json.null) "C123" "hello").2).headers
      = [("Authorization", "Bearer xoxb-secret"), ("Content-Type", "application/json")] ∧
    (((SlackClient.init "xoxb-secret").post_message
        (fun _ => Except.ok Json.null) "C123" "hello").2).headers.all
      (fun kv => kv.1 != "T0WORKSPACE" && kv.2 != "T0WORKSPACE") = true := by
  decide

/-- C6, amended: the bearer token is fixed once in `__init__` into the
client's header set `[("Authorization", "Bearer <token>"),
("Content-Type", "application/json")]`, which is attached unchanged to
every outbound HTTP call of every client operation; the workspace
identifier is not a header — it is sent as the `team_id` query parameter,
and only on the channel-listing and user-listing operations. -/
theorem C6_amended_credential_usage (bot_token team_id : String) (net : Net)
    (limitArg : Option Int) (cursor : Option String)
    (channel_id thread_ts text timestamp reaction user_id : String) :
    (((SlackClient.init bot_token).get_channels team_id net limitArg cursor).2.headers
       = [("Authorization", "Bearer " ++ bot_token), ("Content-Type", "application/json")] ∧
     ((SlackClient.init bot_token).post_message net channel_id text).2.headers
       = [("Authorization", "Bearer " ++ bot_token), ("Content-Type", "application/json")] ∧
     ((SlackClient.init bot_token).post_reply net channel_id thread_ts text).2.headers
       = [("Authorization", "Bearer " ++ bot_token), ("Content-Type", "application/json")] ∧
     ((SlackClient.init bot_token).add_reaction net channel_id timestamp reaction).2.headers
       = [("Authorization", "Bearer " ++ bot_token), ("Content-Type", "application/json")] ∧
     ((SlackClient.init bot_token).get_channel_history net channel_id limitArg).2.headers
       = [("Authorization", "Bearer " ++ bot_token), ("Content-Type", "application/json")] ∧
     ((SlackClient.init bot_token).get_thread_replies net channel_id thread_ts).2.headers
       = [("Authorization", "Bearer " ++ bot_token), ("Content-Type", "application/json")] ∧
     ((SlackClient.init bot_token).get_users team_id net limitArg cursor).2.headers
       = [("Authorization", "Bearer " ++ bot_token), ("Content-Type", "application/json")] ∧
     ((SlackClient.init bot_token).get_user_profile net user_id).2.headers
       = [("Authorization", "Bearer " ++ bot_token), ("Content-Type", "application/json")]) ∧
    (((SlackClient.init bot_token).get_channels team_id net limitArg cursor).2.getParam "team_id" = some team_id ∧
     ((SlackClient.init bot_token).get_users team_id net limitArg cursor).2.getParam "team_id" = some team_id ∧
     ((SlackClient.init bot_token).post_message net channel_id text).2.getParam "team_id" = none ∧
     ((SlackClient.init bot_token).post_reply net channel_id thread_ts text).2.getParam "team_id" = none ∧
     ((SlackClient.init bot_token).add_reaction net channel_id timestamp reaction).2.getParam "team_id" = none ∧
     ((SlackClient.init bot_token).get_channel_history net channel_id limitArg).2.getParam "team_id" = none ∧
     ((SlackClient.init bot_token).get_thread_replies net channel_id thread_ts).2.getParam "team_id" = none ∧
     ((SlackClient.init bot_token).get_user_profile net user_id).2.getParam "team_id" = none) := by
  refine ⟨⟨?_, rfl, rfl, rfl, rfl, rfl, ?_, rfl⟩, ?_, ?_, rfl, rfl, rfl, ?_, rfl, ?_⟩
  · rcases cursor with _ | cur
    · rfl
    · by_cases hc : cur = "" <;>
        simp [SlackClient.get_channels, SlackClient.init, hc]
  · rcases cursor with _ | cur
    · rfl
    · by_cases hc : cur = "" <;>
        simp [SlackClient.get_users, SlackClient.init, hc]
  · rcases cursor with _ | cur
    · simp [SlackClient.get_channels, HttpRequest.getParam, List.find?]
    · by_cases hc : cur = "" <;>
        simp [SlackClient.get_channels, HttpRequest.getParam, List.find?, hc]
  · rcases cursor with _ | cur
    · simp [SlackClient.get_users, HttpRequest.getParam, List.find?]
    · by_cases hc : cur = "" <;>
        simp [SlackClient.get_users, HttpRequest.getParam, List.find?, hc]
  · simp [SlackClient.get_channel_history, HttpRequest.getParam, List.find?]
  · simp [SlackClient.get_user_profile, HttpRequest.getParam, List.find?]

/-- C8: if either `SLACK_BOT_TOKEN` or `SLACK_TEAM_ID` is absent from
the environment, startup prints a diagnostic to stderr and exits with a
non-zero status; no client is constructed and no tool call is served. -/
theorem C8_startup_env_check (env : String → Option String)
    (h : env "SLACK_BOT_TOKEN" = none ∨ env "SLACK_TEAM_ID" = none) :
    ∃ ex : StartupExit,
      startup_check env = Except.error ex ∧
      ex.exit_code ≠ 0 ∧
      ex.stderr_msg = "Please set SLACK_BOT_TOKEN and SLACK_TEAM_ID environment variables" := by
  refine ⟨{ stderr_msg := "Please set SLACK_BOT_TOKEN and SLACK_TEAM_ID environment variables",
            exit_code := 1 }, ?_, by decide, rfl⟩
  rcases h with h | h <;> simp [startup_check, pyTruthy, h]

/-- Witness for C8 with an empty environment. -/
theorem C8_startup_env_check_witness :
    ((fun _ => (none : Option String)) "SLACK_BOT_TOKEN" = none ∨
     (fun _ => (none : Option String)) "SLACK_TEAM_ID" = none) ∧
    (∃ ex : StartupExit,
      startup_check (fun _ => none) = Except.error ex ∧
      ex.exit_code ≠ 0 ∧
      ex.stderr_msg = "Please set SLACK_BOT_TOKEN and SLACK_TEAM_ID environment variables") :=
  ⟨Or.inl rfl, C8_startup_env_check (fun _ => none) (Or.inl rfl)⟩

/-- C9: `get_channel_history` sends `str(limit)` verbatim as the `limit`
query parameter for every integer value, including values above 200; no
cap is applied to this operation. -/
theorem C9_history_limit_uncapped (c : SlackClient) (net : Net)
    (channel_id : String) (limit : Int) :
    (c.get_channel_history net channel_id (some limit)).2.getParam "limit"
      = some (toString limit) := by
  simp [SlackClient.get_channel_history, HttpRequest.getParam, List.find?]

/-- Helper: the tool dispatch of a non-validating tool is the pair of
the serialized oracle answer and the single issued request. -/
theorem dispatch_eq_pair (net : Net) (req : HttpRequest) :
    (match net req with
     | Except.ok r => (Json.dumps r, [req])
     | Except.error e => (Json.dumps (errJson e), [req]))
    = ((match net req with
        | Except.ok j => Json.dumps j
        | Except.error e => Json.dumps (errJson e)), [req]) := by
  cases net req <;> rfl

/-- C10: `slack_list_channels` and `slack_get_users` perform no argument
validation: for every combination of `limit` and `cursor` (zero,
negative, or empty-string included), the invocation issues exactly one
request and its result is entirely determined by the network oracle's
answer — never a locally generated validation error. -/
theorem C10_no_validation (c : SlackClient) (team_id : String) (net : Net)
    (limitArg : Option Int) (cursor : Option String) :
    (∃ r, slack_list_channels c team_id net limitArg cursor
        = ((match net r with
            | Except.ok j => Json.dumps j
            | Except.error e => Json.dumps (errJson e)), [r])) ∧
    (∃ r, slack_get_users c team_id net limitArg cursor
        = ((match net r with
            | Except.ok j => Json.dumps j
            | Except.error e => Json.dumps (errJson e)), [r])) :=
  ⟨⟨_, dispatch_eq_pair net _⟩, ⟨_, dispatch_eq_pair net _⟩⟩
